import Mathlib

/-!
# Verification of the spotnet billing / payment workflow

A shallow embedding of the billing-cycle and payment-reconciliation core of
the spotnet repository:

* `phpAddMonths` models the date arithmetic performed by PHP's
  `DateTime::add(new DateInterval('P{c}M'))` as used in
  `api/clients.php` (`processPayment`) and in the subscriptions API
  (`calculateNextPaymentDate`).  PHP month addition increments the month
  field and then normalises a day overflow by carrying the excess days into
  the following month (e.g. 2025-01-31 plus one month is 2025-03-03); it
  does not clamp to the end of the target month.
* `sendWhatsAppViaApi`, `sendPaymentConfirmationInternal` and
  `sendPaymentConfirmationMessage` model the WhatsApp service helpers.
* `processPayment` models the `action=pay` endpoint of `api/clients.php`.
* `updateExpiredSubscriptions` models the expiration sweep of the
  subscriptions API.
* `raceRun` models two concurrent `processPayment` requests as interleaved
  read / write actions on the subscription row; the SELECT in the source
  carries no locking clause, so any interleaving of the two transactions'
  reads and writes is admissible.

Database reads and writes are modelled by explicit state passing over
`DBState`.  JSON request bodies are modelled as typed optional fields
(a missing JSON key becomes `none`).  PHP `empty()` truthiness on strings
and numbers is modelled by `phpEmptyStr`, `phpEmptyIntOpt` and
`phpEmptyRatOpt` (in PHP, `0`, `0.0`, `""` and `"0"` are all empty).
Logging via `error_log` / `logWhatsAppDebug` and database failure paths
(`PDOException`) are not modelled; the `whatsapp_logs` insert is modelled
by the `walogs` component of the state.
-/

namespace Spotnet

/-- A calendar date, as stored in the SQL `DATE` columns. -/
structure Date where
  year : Nat
  month : Nat
  day : Nat
deriving DecidableEq, Repr

/-- Gregorian leap-year rule (as implemented by PHP's calendar). -/
def isLeapYear (y : Nat) : Bool :=
  (y % 4 == 0 && y % 100 != 0) || y % 400 == 0

/-- Number of days of month `m` of year `y`. -/
def daysInMonth (y m : Nat) : Nat :=
  if m == 2 then (if isLeapYear y then 29 else 28)
  else if m == 4 || m == 6 || m == 9 || m == 11 then 30
  else 31

/-- The date is a real calendar date. -/
def Date.valid (d : Date) : Prop :=
  1 ≤ d.month ∧ d.month ≤ 12 ∧ 1 ≤ d.day ∧ d.day ≤ daysInMonth d.year d.month

instance (d : Date) : Decidable d.valid := by
  unfold Date.valid; infer_instance

/-- Strict comparison of SQL `DATE` values (`next_payment_date < CURDATE()`). -/
def Date.before (a b : Date) : Bool :=
  a.year < b.year ||
    (a.year == b.year && (a.month < b.month || (a.month == b.month && a.day < b.day)))

/--
PHP `DateTime::add(new DateInterval('P' . c . 'M'))`, as used at
`api/clients.php` lines 421-425 and in `calculateNextPaymentDate` of the
subscriptions API: add `c` to the month field, normalise the year, and then
normalise a day overflow by carrying the excess days into the following
month.  For a valid input date the overflow is at most three days, so a
single carry step reproduces PHP's normalisation exactly.  No end-of-month
clamping is performed.
-/
def phpAddMonths (d : Date) (c : Nat) : Date :=
  let m0 := d.month - 1 + c
  let y := d.year + m0 / 12
  let m := m0 % 12 + 1
  if d.day ≤ daysInMonth y m then ⟨y, m, d.day⟩
  else if m == 12 then ⟨y + 1, 1, d.day - daysInMonth y m⟩
  else ⟨y, m + 1, d.day - daysInMonth y m⟩

/-- PHP `empty()` on a string value: `""` and `"0"` are empty. -/
def phpEmptyStr (s : String) : Bool := s == "" || s == "0"

/-- PHP `empty()` on an optional integer JSON field: missing, `null` and `0`
are empty. -/
def phpEmptyIntOpt : Option Int → Bool
  | none => true
  | some n => n == 0

/-- PHP `empty()` on an optional numeric (decimal) JSON field. -/
def phpEmptyRatOpt : Option Rat → Bool
  | none => true
  | some q => decide (q = 0)

/-- The characters stripped by PHP `trim()` with the default character list
`" \t\n\r\0\x0B"`. -/
def isPhpTrimChar (c : Char) : Bool :=
  c == ' ' || c == '\t' || c == '\n' || c == '\r' || c == '\x00' || c == '\x0b'

/-- PHP `trim($s)`. -/
def phpTrim (s : String) : String :=
  ⟨((s.data.dropWhile isPhpTrimChar).reverse.dropWhile isPhpTrimChar).reverse⟩

/-- PHP `ucfirst($s)`. -/
def phpUcfirst (s : String) : String :=
  match s.data with
  | [] => ""
  | c :: cs => ⟨c.toUpper :: cs⟩

/-- PHP `preg_replace('/[^0-9]/', '', $s)`: keep only decimal digits. -/
def stripNonDigits (s : String) : String :=
  ⟨s.data.filter fun c => c.isDigit⟩

/-- Decimal digit character. -/
def digitChar (d : Nat) : Char :=
  if d == 0 then '0' else if d == 1 then '1' else if d == 2 then '2'
  else if d == 3 then '3' else if d == 4 then '4' else if d == 5 then '5'
  else if d == 6 then '6' else if d == 7 then '7' else if d == 8 then '8'
  else '9'

/-- Decimal digits of `n`, most significant first (fuel-based so that it
reduces in the kernel). -/
def natDigitsAux : Nat → Nat → List Char
  | 0, _ => []
  | fuel + 1, n =>
    if n < 10 then [digitChar n]
    else natDigitsAux fuel (n / 10) ++ [digitChar (n % 10)]

/-- Decimal representation of a natural number. -/
def natStr (n : Nat) : String := ⟨natDigitsAux (n + 1) n⟩

/-- Insert a `,` before every further group of three digits; the input and
output lists are least-significant-digit first. -/
def groupThousandsRev : List Char → Nat → List Char
  | [], _ => []
  | c :: cs, k =>
    if k == 3 then c :: ',' :: groupThousandsRev cs 1
    else c :: groupThousandsRev cs (k + 1)

/-- Two-digit zero-padded representation of `n < 100`. -/
def twoDigits (n : Nat) : String := ⟨[digitChar (n / 10 % 10), digitChar (n % 10)]⟩

/-- The number of cents of a decimal amount `q`, rounded half away from
zero (the rounding PHP `number_format($q, 2)` performs): for `q ≥ 0` this
is `⌊100 q + 1/2⌋`, computed on the reduced fraction `q.num / q.den`. -/
def phpRoundCents (q : Rat) : Int :=
  if 0 ≤ q.num then (200 * q.num + (q.den : Int)) / (2 * (q.den : Int))
  else -((200 * (-q.num) + (q.den : Int)) / (2 * (q.den : Int)))

/-- PHP `number_format($q, 2)`: round to two decimals, group the integer
part with thousands separators. -/
def phpNumberFormat2 (q : Rat) : String :=
  let cents := phpRoundCents q
  let sign := if cents < 0 then "-" else ""
  let c := cents.natAbs
  let intPart := ⟨(groupThousandsRev (natDigitsAux (c / 100 + 1) (c / 100)).reverse 1).reverse⟩
  sign ++ intPart ++ "." ++ twoDigits (c % 100)

/-- English month name, as produced by PHP `date('F', ...)`. -/
def monthName (m : Nat) : String :=
  if m == 1 then "January" else if m == 2 then "February"
  else if m == 3 then "March" else if m == 4 then "April"
  else if m == 5 then "May" else if m == 6 then "June"
  else if m == 7 then "July" else if m == 8 then "August"
  else if m == 9 then "September" else if m == 10 then "October"
  else if m == 11 then "November" else "December"

/-- PHP `date('F j, Y', ...)` applied to a calendar date. -/
def formatLongDate (d : Date) : String :=
  monthName d.month ++ " " ++ natStr d.day ++ ", " ++ natStr d.year

/-- Subscription status (`active` / `stopped` / `expired`). -/
inductive SubStatus
  | active
  | stopped
  | expired
deriving DecidableEq, Repr

/-- Reminder status (`pending` / `sent` / `failed`). -/
inductive ReminderStatus
  | pending
  | sent
  | failed
deriving DecidableEq, Repr

/-- A row of the `clients` table (the columns the payment workflow reads). -/
structure Client where
  id : Nat
  name : String
  email : String
  phone : String
  whatsapp_opt_in : Nat
deriving DecidableEq, Repr

/-- A row of the `subscriptions` table. -/
structure Subscription where
  id : Nat
  client_id : Nat
  type : String
  billing_cycle : Nat
  status : SubStatus
  next_payment_date : Date
deriving DecidableEq, Repr

/-- A row of the `payments` table. -/
structure Payment where
  id : Nat
  subscription_id : Nat
  amount : Rat
  payment_date : Date
  payment_method : String
  notes : String
deriving DecidableEq, Repr

/-- A row of the `reminders` table (the columns the confirmation flow writes). -/
structure Reminder where
  id : Nat
  client_id : Nat
  message : String
  send_via_whatsapp : Bool
  status : ReminderStatus
deriving DecidableEq, Repr

/-- The JSON body decoded from the external relay's HTTP response: either a
decoded JSON object (modelled as its string-valued fields) or the raw body
when `json_decode` fails. -/
inductive ResponseData
  | json (kvs : List (String × String))
  | raw (s : String)
deriving DecidableEq, Repr

/-- A row of the `whatsapp_logs` table. -/
structure WaLog where
  phone : String
  message : String
  response_code : Nat
  response_data : ResponseData
deriving DecidableEq, Repr

/-- The database state the payment workflow touches. `nextPaymentId` and
`nextReminderId` model the auto-increment counters (`lastInsertId`). -/
structure DBState where
  clients : List Client
  subs : List Subscription
  payments : List Payment
  reminders : List Reminder
  walogs : List WaLog
  nextPaymentId : Nat
  nextReminderId : Nat
deriving DecidableEq, Repr

/-- The observable outcome of the single `curl` call to the external
WhatsApp relay: `curlError` is the string returned by `curl_error` (empty
when transport succeeded), `httpCode` the HTTP status, `body` the raw
response body and `decodedBody` the result of `json_decode` on it (`none`
when the body is not valid JSON). -/
structure RelayResponse where
  curlError : String
  httpCode : Nat
  body : String
  decodedBody : Option (List (String × String))
deriving DecidableEq, Repr

/-- The associative array returned by `sendWhatsAppViaApi` and
`sendPaymentConfirmationInternal`: `error` is `none` when the `error` key
is absent. -/
structure WaApiResult where
  success : Bool
  error : Option String
  http_code : Nat
  response : Option ResponseData
deriving DecidableEq, Repr

/--
`sendWhatsAppViaApi` from the WhatsApp service helpers: validate phone and
message, strip non-digits from the phone, perform the single relay call
(its outcome is the `relay` argument; the component performs no retry),
insert a `whatsapp_logs` row, and classify the outcome: a non-empty
`curl_error` is a failure, then a non-2xx HTTP status is a failure whose
message is taken from the decoded body's `message` field when present;
any 2xx response without transport error is a success, whatever the body.
-/
def sendWhatsAppViaApi (st : DBState) (phoneRaw message : String)
    (relay : RelayResponse) : WaApiResult × DBState :=
  if phpEmptyStr phoneRaw then
    (⟨false, some "Phone number is required", 400, none⟩, st)
  else if phpEmptyStr message then
    (⟨false, none, 400, none⟩, st)
  else
    let phone := stripNonDigits phoneRaw
    let responseData : ResponseData :=
      match relay.decodedBody with
      | some kvs => ResponseData.json kvs
      | none => ResponseData.raw relay.body
    let st1 := { st with walogs := st.walogs ++ [⟨phone, message, relay.httpCode, responseData⟩] }
    if relay.curlError ≠ "" then
      (⟨false, some relay.curlError,
        if relay.httpCode == 0 then 500 else relay.httpCode, some responseData⟩, st1)
    else if 200 ≤ relay.httpCode ∧ relay.httpCode < 300 then
      (⟨true, none, relay.httpCode, some responseData⟩, st1)
    else
      let errMsg :=
        match responseData with
        | ResponseData.json kvs =>
          match kvs.lookup "message" with
          | some m => m
          | none => "Error sending WhatsApp message"
        | ResponseData.raw _ => "Error sending WhatsApp message"
      (⟨false, some errMsg, relay.httpCode, some responseData⟩, st1)

/-- The text built by `sendPaymentConfirmationInternal`. -/
def confirmationMessage (clientName subType : String) (amount : Rat)
    (paymentDate : Date) : String :=
  "Hello " ++ clientName ++ ",\n\n" ++
    "We have received your " ++ phpUcfirst subType ++ " subscription payment.\n" ++
    "Amount: $" ++ phpNumberFormat2 amount ++ "\n" ++
    "Date: " ++ formatLongDate paymentDate ++ "\n\n" ++
    "Thank you for your prompt payment.\n" ++
    "- Spotnet Team"

/-- The `payments ⋈ subscriptions ⋈ clients` lookup of
`sendPaymentConfirmationInternal` (`WHERE p.id = :payment_id`). -/
def findPaymentJoin (st : DBState) (pid : Int) :
    Option (Payment × Subscription × Client) :=
  match st.payments.find? (fun p => (p.id : Int) == pid) with
  | none => none
  | some p =>
    match st.subs.find? (fun s => s.id == p.subscription_id) with
    | none => none
    | some s =>
      match st.clients.find? (fun c => c.id == s.client_id) with
      | none => none
      | some c => some (p, s, c)

/--
`sendPaymentConfirmationInternal` from the WhatsApp service helpers:
look up the payment with its subscription and client, resolve the phone
(`$params['phone'] ?? $payment['phone']`), check the phone is non-empty and
the client's `whatsapp_opt_in` is 1, pre-create a reminder in status
`sent`, perform the relay call, and on failure flip the reminder to
`failed` and surface the error (defaulting to a generic message).
-/
def sendPaymentConfirmationInternal (st : DBState) (paymentId : Int)
    (phoneParam : Option String) (relay : RelayResponse) : WaApiResult × DBState :=
  if paymentId ≤ 0 then
    (⟨false, some "Valid payment ID is required", 400, none⟩, st)
  else
    match findPaymentJoin st paymentId with
    | none => (⟨false, some "Payment not found", 404, none⟩, st)
    | some (payment, sub, client) =>
      let phone := phoneParam.getD client.phone
      if phpEmptyStr phone then
        (⟨false, some "Client phone number is missing", 400, none⟩, st)
      else if ¬client.whatsapp_opt_in = 1 then
        (⟨false, some "Client has not opted in for WhatsApp notifications", 400, none⟩, st)
      else
        let message := confirmationMessage client.name sub.type payment.amount payment.payment_date
        let reminderId := st.nextReminderId
        let st1 := { st with
          reminders := st.reminders ++ [⟨reminderId, sub.client_id, message, true, ReminderStatus.sent⟩],
          nextReminderId := reminderId + 1 }
        let sendResult := sendWhatsAppViaApi st1 phone message relay
        if sendResult.1.success then
          (⟨true, none, sendResult.1.http_code, sendResult.1.response⟩, sendResult.2)
        else
          let markFailed := fun (r : Reminder) =>
            if r.id == reminderId then { r with status := ReminderStatus.failed } else r
          let st2 :=
            if reminderId > 0 then
              { sendResult.2 with reminders := (sendResult.2).reminders.map markFailed }
            else sendResult.2
          (⟨false, some ((sendResult.1).error.getD "Unknown error sending WhatsApp message"),
            sendResult.1.http_code, sendResult.1.response⟩, st2)

/-- `sendPaymentConfirmationMessage`: merge the options with the payment id
and delegate to `sendPaymentConfirmationInternal`. -/
def sendPaymentConfirmationMessage (st : DBState) (paymentId : Int)
    (phoneParam : Option String) (relay : RelayResponse) : WaApiResult × DBState :=
  sendPaymentConfirmationInternal st paymentId phoneParam relay

/-- The JSON body of a `action=pay` request; a missing key is `none`. -/
structure PaymentInput where
  subscription_id : Option Int
  amount : Option Rat
  payment_method : Option String
  notes : Option String
  payment_date : Option Date
  send_whatsapp : Option Bool
deriving DecidableEq, Repr

/-- The JSON response sent by `sendResponse`: either a failure with message
and HTTP code, or the success payload of a processed payment. -/
inductive PayResponse
  | err (message : String) (code : Nat)
  | ok (payment_id : Nat) (next_payment_date : Date) (whatsapp_sent : Bool)
      (whatsapp_error : Option String)
deriving DecidableEq, Repr

/-- The `next_payment_date` field of a payment response, when present. -/
def PayResponse.nextDate : PayResponse → Option Date
  | PayResponse.err _ _ => none
  | PayResponse.ok _ nd _ _ => some nd

/-- The observable outcome of one `processPayment` request: the response,
the database state after the request, and whether the email and WhatsApp
notification paths were invoked. -/
structure PayOutcome where
  response : PayResponse
  state : DBState
  emailAttempted : Bool
  whatsappAttempted : Bool
deriving DecidableEq, Repr

/-- The `subscriptions ⋈ clients` lookup of `processPayment`
(`WHERE s.id = :subscription_id`). -/
def findSubJoinClient (st : DBState) (sid : Int) : Option (Subscription × Client) :=
  match st.subs.find? (fun s => (s.id : Int) == sid) with
  | none => none
  | some s =>
    match st.clients.find? (fun c => c.id == s.client_id) with
    | none => none
    | some c => some (s, c)

/-- The WhatsApp decision of `processPayment`: with no explicit
`send_whatsapp` intent, send exactly when the client opted in and has a
non-empty phone; with an explicit intent, additionally require it to be
true.  Consent and phone are checked in every case. -/
def shouldSendWhatsApp (request : Option Bool) (optIn : Nat) (phone : String) : Bool :=
  match request with
  | none => optIn == 1 && !phpEmptyStr phone
  | some b => b && (optIn == 1 && !phpEmptyStr phone)

/-- The SQL `UPDATE subscriptions SET next_payment_date = ..., status =
'active' WHERE id = :subscription_id`. -/
def subAdvance (newDate : Date) (sid : Nat) (subs : List Subscription) : List Subscription :=
  subs.map fun s =>
    if s.id == sid then { s with next_payment_date := newDate, status := SubStatus.active } else s

/--
`processPayment` from `api/clients.php` (`action=pay`): validate the
required fields with PHP `empty()` (`subscription_id` first, then
`amount`), default the method to `cash`, trim the notes, default the
payment date to today, look up the subscription joined with its client
(404 and no mutation when absent), insert the payment row, advance
`next_payment_date` by `billing_cycle` months from the *stored* due date
using PHP month arithmetic, set the status to `active`, commit, then send
the confirmation email unconditionally and attempt the WhatsApp
confirmation exactly when `shouldSendWhatsApp` holds; the WhatsApp outcome
is surfaced only through `whatsapp_sent` / `whatsapp_error` on the success
response.  The relay outcome is the `relay` argument.
-/
def processPayment (today : Date) (relay : RelayResponse) (input : PaymentInput)
    (st : DBState) : PayOutcome :=
  if phpEmptyIntOpt input.subscription_id then
    ⟨PayResponse.err "Subscription id is required" 400, st, false, false⟩
  else if phpEmptyRatOpt input.amount then
    ⟨PayResponse.err "Amount is required" 400, st, false, false⟩
  else
    let sid : Int := input.subscription_id.getD 0
    let amount : Rat := input.amount.getD 0
    let payment_method := input.payment_method.getD "cash"
    let notes := phpTrim (input.notes.getD "")
    let payment_date := input.payment_date.getD today
    match findSubJoinClient st sid with
    | none => ⟨PayResponse.err "Subscription not found" 404, st, false, false⟩
    | some (sub, client) =>
      let payment_id := st.nextPaymentId
      let newPayment : Payment := ⟨payment_id, sub.id, amount, payment_date, payment_method, notes⟩
      let new_next_date := phpAddMonths sub.next_payment_date sub.billing_cycle
      let st1 : DBState := { st with
        payments := st.payments ++ [newPayment],
        subs := subAdvance new_next_date sub.id st.subs,
        nextPaymentId := payment_id + 1 }
      if shouldSendWhatsApp input.send_whatsapp client.whatsapp_opt_in client.phone then
        let confirmationResult :=
          sendPaymentConfirmationMessage st1 (payment_id : Int) (some client.phone) relay
        ⟨PayResponse.ok payment_id new_next_date confirmationResult.1.success confirmationResult.1.error,
          confirmationResult.2, true, true⟩
      else
        ⟨PayResponse.ok payment_id new_next_date false none, st1, true, false⟩

/-- One subscription's step of the expiration sweep (the SQL `UPDATE ...
SET status = 'expired' WHERE status = 'active' AND next_payment_date <
CURDATE()` restricted to one row). -/
def expireOne (today : Date) (s : Subscription) : Subscription :=
  if s.status = SubStatus.active ∧ s.next_payment_date.before today = true then
    { s with status := SubStatus.expired }
  else s

/-- `updateExpiredSubscriptions`: the query-time expiration sweep. -/
def updateExpiredSubscriptions (today : Date) (subs : List Subscription) : List Subscription :=
  subs.map (expireOne today)

/-- The sweep as performed on the database state at the start of
`getSubscriptions` (the list read path). -/
def getSubscriptionsSweep (today : Date) (st : DBState) : DBState :=
  { st with subs := updateExpiredSubscriptions today st.subs }

/-- One atomic database action of a payment request on the subscription
row: the SELECT of `next_payment_date` or the UPDATE writing the advanced
date computed from the value previously read. -/
inductive PayAct
  | readSub
  | writeSub
deriving DecidableEq, Repr

/-- State of two in-flight payment requests over the shared subscription
row: the stored `next_payment_date`, each request's read value, and each
request's remaining actions.  The source's SELECT carries no `FOR UPDATE`
clause and no optimistic check, so reads never block and any interleaving
is admissible. -/
structure RaceState where
  rowDate : Date
  read1 : Option Date
  read2 : Option Date
  prog1 : List PayAct
  prog2 : List PayAct
deriving DecidableEq, Repr

/-- Execute one action of one request against the shared row. -/
def raceStep (cycle : Nat) (readv : Option Date) (rowDate : Date) (a : PayAct) :
    Option Date × Date :=
  match a with
  | PayAct.readSub => (some rowDate, rowDate)
  | PayAct.writeSub =>
    (readv, match readv with
      | some d => phpAddMonths d cycle
      | none => rowDate)

/-- Run a schedule (`false` = request 1 acts next, `true` = request 2). -/
def raceRun (cycle : Nat) : List Bool → RaceState → RaceState
  | [], st => st
  | b :: rest, st =>
    if b then
      match st.prog2 with
      | [] => raceRun cycle rest st
      | a :: more =>
        let step := raceStep cycle st.read2 st.rowDate a
        raceRun cycle rest { st with read2 := step.1, rowDate := step.2, prog2 := more }
    else
      match st.prog1 with
      | [] => raceRun cycle rest st
      | a :: more =>
        let step := raceStep cycle st.read1 st.rowDate a
        raceRun cycle rest { st with read1 := step.1, rowDate := step.2, prog1 := more }

/-- The initial state of two concurrent payment requests over a
subscription row holding date `d`. -/
def raceInit (d : Date) : RaceState :=
  ⟨d, none, none, [PayAct.readSub, PayAct.writeSub], [PayAct.readSub, PayAct.writeSub]⟩

/-! ### Helper lemmas -/

theorem shouldSendWhatsApp_true_iff (r : Option Bool) (o : Nat) (p : String) :
    shouldSendWhatsApp r o p = true ↔
      o = 1 ∧ phpEmptyStr p = false ∧ (r = none ∨ r = some true) := by
  cases r with
  | none => simp [shouldSendWhatsApp]
  | some b => cases b <;> simp [shouldSendWhatsApp]

theorem waapi_clients (st : DBState) (ph m : String) (relay : RelayResponse) :
    (sendWhatsAppViaApi st ph m relay).2.clients = st.clients := by
  unfold sendWhatsAppViaApi; split_ifs <;> rfl

theorem waapi_subs (st : DBState) (ph m : String) (relay : RelayResponse) :
    (sendWhatsAppViaApi st ph m relay).2.subs = st.subs := by
  unfold sendWhatsAppViaApi; split_ifs <;> rfl

theorem waapi_payments (st : DBState) (ph m : String) (relay : RelayResponse) :
    (sendWhatsAppViaApi st ph m relay).2.payments = st.payments := by
  unfold sendWhatsAppViaApi; split_ifs <;> rfl

theorem internal_preserves (st : DBState) (pid : Int) (ph : Option String)
    (relay : RelayResponse) :
    (sendPaymentConfirmationInternal st pid ph relay).2.clients = st.clients ∧
    (sendPaymentConfirmationInternal st pid ph relay).2.subs = st.subs ∧
    (sendPaymentConfirmationInternal st pid ph relay).2.payments = st.payments := by
  simp only [sendPaymentConfirmationInternal]
  split
  · exact ⟨rfl, rfl, rfl⟩
  · split
    · exact ⟨rfl, rfl, rfl⟩
    · split
      · exact ⟨rfl, rfl, rfl⟩
      · split
        · exact ⟨rfl, rfl, rfl⟩
        · split
          · simp [waapi_clients, waapi_subs, waapi_payments]
          · split <;> simp [waapi_clients, waapi_subs, waapi_payments]

theorem internal_cases (st : DBState) (pid : Int) (ph : Option String)
    (relay : RelayResponse) :
    (sendPaymentConfirmationInternal st pid ph relay).1.success = true ∨
    ∃ e, (sendPaymentConfirmationInternal st pid ph relay).1.error = some e := by
  simp only [sendPaymentConfirmationInternal]
  split
  · exact Or.inr ⟨_, rfl⟩
  · split
    · exact Or.inr ⟨_, rfl⟩
    · split
      · exact Or.inr ⟨_, rfl⟩
      · split
        · exact Or.inr ⟨_, rfl⟩
        · split
          · exact Or.inl rfl
          · exact Or.inr ⟨_, rfl⟩

theorem internal_error_of_fail (st : DBState) (pid : Int) (ph : Option String)
    (relay : RelayResponse)
    (h : (sendPaymentConfirmationInternal st pid ph relay).1.success = false) :
    ∃ e, (sendPaymentConfirmationInternal st pid ph relay).1.error = some e := by
  rcases internal_cases st pid ph relay with h1 | h2
  · simp [h1] at h
  · exact h2

theorem subAdvance_elem_id (nd : Date) (sid : Nat) (s : Subscription) :
    (if s.id == sid then { s with next_payment_date := nd, status := SubStatus.active } else s).id
      = s.id := by
  split <;> rfl

theorem find_pred_cast (sid : Int) (sub : Subscription)
    (h : (sub.id : Int) = sid) :
    (fun s : Subscription => s.id == sub.id) = (fun s : Subscription => (s.id : Int) == sid) := by
  funext s
  apply Bool.coe_iff_coe.mp
  simp only [beq_iff_eq]
  rw [← h, Int.natCast_inj]

theorem subAdvance_find (subs : List Subscription) (sid : Int) (sub : Subscription) (nd : Date)
    (h : subs.find? (fun s => (s.id : Int) == sid) = some sub) :
    (subAdvance nd sub.id subs).find? (fun s => s.id == sub.id) =
      some { sub with next_payment_date := nd, status := SubStatus.active } := by
  have hsub := List.find?_some h
  simp only [beq_iff_eq] at hsub
  unfold subAdvance
  rw [List.find?_map]
  have hcomp : ((fun s : Subscription => s.id == sub.id) ∘
      (fun s => if s.id == sub.id then { s with next_payment_date := nd, status := SubStatus.active } else s))
      = fun s : Subscription => (s.id : Int) == sid := by
    funext s
    dsimp only [Function.comp]
    rw [subAdvance_elem_id]
    exact congrFun (find_pred_cast sid sub hsub) s
  rw [hcomp, h]
  simp

theorem findPaymentJoin_eval (st' base : DBState) (p : Payment) (sub : Subscription)
    (client : Client) (sid : Int) (nd : Date)
    (hp : st'.payments = base.payments ++ [p])
    (hs : st'.subs = subAdvance nd sub.id base.subs)
    (hc : st'.clients = base.clients)
    (hfresh : ∀ q ∈ base.payments, q.id ≠ p.id)
    (hsub : base.subs.find? (fun s => (s.id : Int) == sid) = some sub)
    (hcl : base.clients.find? (fun c => c.id == sub.client_id) = some client)
    (hpsid : p.subscription_id = sub.id) :
    findPaymentJoin st' (p.id : Int) =
      some (p, { sub with next_payment_date := nd, status := SubStatus.active }, client) := by
  unfold findPaymentJoin
  rw [hp, hs, hc]
  have h1 : (base.payments ++ [p]).find? (fun q => (q.id : Int) == (p.id : Int)) = some p := by
    rw [List.find?_append]
    have h0 : base.payments.find? (fun q => (q.id : Int) == (p.id : Int)) = none := by
      rw [List.find?_eq_none]
      intro q hq
      simp only [beq_iff_eq, Int.natCast_inj]
      exact hfresh q hq
    rw [h0]
    simp
  simp only [h1, hpsid, subAdvance_find base.subs sid sub nd hsub]
  simp only [hcl]

theorem phpEmptyStr_confirmationMessage (n t : String) (a : Rat) (d : Date) :
    phpEmptyStr (confirmationMessage n t a d) = false := by
  have h1 : confirmationMessage n t a d ≠ "" := by
    intro h
    have h2 := congrArg String.data h
    simp [confirmationMessage, String.data_append] at h2
  have h0 : confirmationMessage n t a d ≠ "0" := by
    intro h
    have h2 := congrArg String.data h
    simp [confirmationMessage, String.data_append] at h2
  simp [phpEmptyStr, h1, h0]

theorem expireOne_idem (t : Date) (s : Subscription) :
    expireOne t (expireOne t s) = expireOne t s := by
  by_cases h : s.status = SubStatus.active ∧ s.next_payment_date.before t = true
  · have h2 : expireOne t s = { s with status := SubStatus.expired } := by
      rw [expireOne, if_pos h]
    rw [h2, expireOne, if_neg]
    rintro ⟨hc, -⟩
    simp at hc
  · have h2 : expireOne t s = s := by rw [expireOne, if_neg h]
    rw [h2, h2]

theorem updateExpired_idem (t : Date) (subs : List Subscription) :
    updateExpiredSubscriptions t (updateExpiredSubscriptions t subs)
      = updateExpiredSubscriptions t subs := by
  unfold updateExpiredSubscriptions
  rw [List.map_map]
  apply List.map_congr_left
  intro s _
  exact expireOne_idem t s

theorem sweep_forall2 (t : Date) (subs : List Subscription) :
    List.Forall₂ (fun s s' =>
      ((s.status = SubStatus.active ∧ s.next_payment_date.before t = true) →
        s' = { s with status := SubStatus.expired })
      ∧ (¬(s.status = SubStatus.active ∧ s.next_payment_date.before t = true) → s' = s))
      subs (updateExpiredSubscriptions t subs) := by
  induction subs with
  | nil => exact List.Forall₂.nil
  | cons s rest ih =>
    simp only [updateExpiredSubscriptions, List.map_cons] at ih ⊢
    refine List.Forall₂.cons ⟨?_, ?_⟩ ih
    · intro hc
      rw [expireOne, if_pos hc]
    · intro hc
      rw [expireOne, if_neg hc]

theorem findSubJoinClient_some (st : DBState) (sid : Int) (sub : Subscription) (client : Client)
    (h : findSubJoinClient st sid = some (sub, client)) :
    st.subs.find? (fun s => (s.id : Int) == sid) = some sub ∧
    st.clients.find? (fun c => c.id == sub.client_id) = some client := by
  unfold findSubJoinClient at h
  cases hf : st.subs.find? (fun s => (s.id : Int) == sid) with
  | none => rw [hf] at h; simp at h
  | some s =>
    rw [hf] at h
    dsimp only at h
    cases hc : st.clients.find? (fun c => c.id == s.client_id) with
    | none => rw [hc] at h; simp at h
    | some c =>
      rw [hc] at h
      simp only [Option.some.injEq, Prod.mk.injEq] at h
      obtain ⟨rfl, rfl⟩ := h
      exact ⟨rfl, hc⟩

/-! ### Claim theorems -/

/-- C1: the claim states that processing a payment advances the due date by
the billing cycle in calendar months *with end-of-month clamping* (due date
2025-01-31, cycle 1 must yield 2025-02-28).  The code uses PHP
`DateTime::add(new DateInterval('P1M'))`, which does not clamp: the day
overflow is carried into the following month, so the subscription with due
date 2025-01-31 and cycle 1 ends up with next due date 2025-03-03 — an
overflowed date in the month after the target month, contradicting the
claim (and the spec's own example scenario). -/
theorem C1_month_add_overflow :
    phpAddMonths ⟨2025, 1, 31⟩ 1 = ⟨2025, 3, 3⟩
    ∧ phpAddMonths ⟨2025, 1, 31⟩ 1 ≠ ⟨2025, 2, 28⟩
    ∧ (processPayment ⟨2025, 1, 15⟩ ⟨"", 200, "", some []⟩
        ⟨some 1, some 50, none, none, some ⟨2025, 1, 15⟩, some false⟩
        ⟨[⟨7, "Ann", "ann@mail.test", "70123456", 1⟩],
         [⟨1, 7, "internet", 1, SubStatus.active, ⟨2025, 1, 31⟩⟩],
         [], [], [], 1, 1⟩).response
      = PayResponse.ok 1 ⟨2025, 3, 3⟩ false none := by
  exact ⟨by decide, by decide, by decide⟩

/-- C9: the claim states that two concurrent payment requests against the
same subscription always advance the due date by exactly two cycles.  The
code's transaction reads the subscription with a plain SELECT (no FOR
UPDATE, no optimistic check), so the interleaving in which both requests
read the same stale date is admissible; under it the final stored date is
advanced by one cycle only (each request writes `phpAddMonths d 1` computed
from the same base `d`), while serial execution yields the two-cycle date
— the lost update the claim forbids. -/
theorem C9_lost_update_schedule :
    (raceRun 1 [false, true, false, true] (raceInit ⟨2025, 1, 1⟩)).rowDate = ⟨2025, 2, 1⟩
    ∧ (raceRun 1 [false, false, true, true] (raceInit ⟨2025, 1, 1⟩)).rowDate = ⟨2025, 3, 1⟩
    ∧ phpAddMonths (phpAddMonths ⟨2025, 1, 1⟩ 1) 1 = ⟨2025, 3, 1⟩
    ∧ (⟨2025, 2, 1⟩ : Date) ≠ (⟨2025, 3, 1⟩ : Date) := by
  exact ⟨by decide, by decide, by decide, by decide⟩

/-- C8 counterexample: the claim states that a malformed (non-JSON)
response body is reported as a failure even when the HTTP status is 2xx.
In the code, once the transport succeeded and the HTTP status is 2xx the
result is `success: true` regardless of the body: with status 200 and the
non-JSON body `<html>ok</html>` the call reports success with no error. -/
theorem C8_malformed_2xx_counterexample :
    (sendWhatsAppViaApi ⟨[], [], [], [], [], 1, 1⟩ "70123456" "hello"
      ⟨"", 200, "<html>ok</html>", none⟩).1.success = true
    ∧ (sendWhatsAppViaApi ⟨[], [], [], [], [], 1, 1⟩ "70123456" "hello"
      ⟨"", 200, "<html>ok</html>", none⟩).1.error = none := by
  exact ⟨by decide, by decide⟩

/-- C8 (amended): for every WhatsApp relay call with a non-empty phone and
message, the call fails outwardly (`success: false`) exactly when the
transport failed (`curl_error` non-empty) or the HTTP status is not 2xx;
every failure carries an error message; a malformed (non-JSON) 2xx
response body is *not* a failure — it is passed through with
`success: true`.  The component performs the single relay call with no
retry. -/
theorem C8_failure_modes (st : DBState) (phone message : String) (relay : RelayResponse)
    (hp : phpEmptyStr phone = false) (hm : phpEmptyStr message = false) :
    ((sendWhatsAppViaApi st phone message relay).1.success = false ↔
      (relay.curlError ≠ "" ∨ relay.httpCode < 200 ∨ 300 ≤ relay.httpCode))
    ∧ ((sendWhatsAppViaApi st phone message relay).1.success = false →
        ∃ e, (sendWhatsAppViaApi st phone message relay).1.error = some e) := by
  unfold sendWhatsAppViaApi
  simp only [hp, hm, Bool.false_eq_true, if_false]
  by_cases hc : relay.curlError = ""
  · by_cases hr : 200 ≤ relay.httpCode ∧ relay.httpCode < 300
    · simp [hc, hr]
    · simp [hc, hr]
      omega
  · simp [hc]

/-- C8 witness: the amended failure-mode theorem instantiated on a
transport failure. -/
theorem C8_failure_modes_witness :
    (((sendWhatsAppViaApi ⟨[], [], [], [], [], 1, 1⟩ "70123456" "hi"
        ⟨"timeout", 0, "", none⟩).1.success = false ↔
      ((⟨"timeout", 0, "", none⟩ : RelayResponse).curlError ≠ ""
        ∨ (⟨"timeout", 0, "", none⟩ : RelayResponse).httpCode < 200
        ∨ 300 ≤ (⟨"timeout", 0, "", none⟩ : RelayResponse).httpCode))
    ∧ ((sendWhatsAppViaApi ⟨[], [], [], [], [], 1, 1⟩ "70123456" "hi"
        ⟨"timeout", 0, "", none⟩).1.success = false →
        ∃ e, (sendWhatsAppViaApi ⟨[], [], [], [], [], 1, 1⟩ "70123456" "hi"
          ⟨"timeout", 0, "", none⟩).1.error = some e)) :=
  C8_failure_modes ⟨[], [], [], [], [], 1, 1⟩ "70123456" "hi"
    ⟨"timeout", 0, "", none⟩ (by decide) (by decide)

/-- C4: one run of the expiration sweep expires exactly the active
subscriptions whose due date is strictly before today and leaves every
other subscription unchanged in all fields (stated positionally via
`Forall₂`), and the sweep is idempotent, both on the subscription list and
on the whole database state as performed by the list read path. -/
theorem C4_sweep_characterisation (today : Date) (subs : List Subscription) (st : DBState) :
    List.Forall₂ (fun s s' =>
      ((s.status = SubStatus.active ∧ s.next_payment_date.before today = true) →
        s' = { s with status := SubStatus.expired })
      ∧ (¬(s.status = SubStatus.active ∧ s.next_payment_date.before today = true) → s' = s))
      subs (updateExpiredSubscriptions today subs)
    ∧ updateExpiredSubscriptions today (updateExpiredSubscriptions today subs)
      = updateExpiredSubscriptions today subs
    ∧ getSubscriptionsSweep today (getSubscriptionsSweep today st)
      = getSubscriptionsSweep today st := by
  refine ⟨sweep_forall2 today subs, updateExpired_idem today subs, ?_⟩
  simp [getSubscriptionsSweep, updateExpired_idem]

/-- C4 witness: the sweep characterisation instantiated on a two-element
list holding one overdue active subscription and one stopped one. -/
theorem C4_sweep_characterisation_witness :
    List.Forall₂ (fun s s' =>
      ((s.status = SubStatus.active ∧ s.next_payment_date.before (⟨2025, 6, 1⟩ : Date) = true) →
        s' = { s with status := SubStatus.expired })
      ∧ (¬(s.status = SubStatus.active ∧ s.next_payment_date.before (⟨2025, 6, 1⟩ : Date) = true) → s' = s))
      [⟨1, 7, "internet", 1, SubStatus.active, ⟨2025, 5, 1⟩⟩,
       ⟨2, 7, "satellite", 3, SubStatus.stopped, ⟨2025, 5, 1⟩⟩]
      (updateExpiredSubscriptions ⟨2025, 6, 1⟩
        [⟨1, 7, "internet", 1, SubStatus.active, ⟨2025, 5, 1⟩⟩,
         ⟨2, 7, "satellite", 3, SubStatus.stopped, ⟨2025, 5, 1⟩⟩])
    ∧ updateExpiredSubscriptions ⟨2025, 6, 1⟩ (updateExpiredSubscriptions ⟨2025, 6, 1⟩
        [⟨1, 7, "internet", 1, SubStatus.active, ⟨2025, 5, 1⟩⟩,
         ⟨2, 7, "satellite", 3, SubStatus.stopped, ⟨2025, 5, 1⟩⟩])
      = updateExpiredSubscriptions ⟨2025, 6, 1⟩
        [⟨1, 7, "internet", 1, SubStatus.active, ⟨2025, 5, 1⟩⟩,
         ⟨2, 7, "satellite", 3, SubStatus.stopped, ⟨2025, 5, 1⟩⟩]
    ∧ getSubscriptionsSweep ⟨2025, 6, 1⟩ (getSubscriptionsSweep ⟨2025, 6, 1⟩
        ⟨[], [⟨1, 7, "internet", 1, SubStatus.active, ⟨2025, 5, 1⟩⟩], [], [], [], 1, 1⟩)
      = getSubscriptionsSweep ⟨2025, 6, 1⟩
        ⟨[], [⟨1, 7, "internet", 1, SubStatus.active, ⟨2025, 5, 1⟩⟩], [], [], [], 1, 1⟩ :=
  C4_sweep_characterisation ⟨2025, 6, 1⟩
    [⟨1, 7, "internet", 1, SubStatus.active, ⟨2025, 5, 1⟩⟩,
     ⟨2, 7, "satellite", 3, SubStatus.stopped, ⟨2025, 5, 1⟩⟩]
    ⟨[], [⟨1, 7, "internet", 1, SubStatus.active, ⟨2025, 5, 1⟩⟩], [], [], [], 1, 1⟩

/-- C7: when the `subscription_id` of a (field-complete) payment request
matches no subscription row, the whole operation fails with the error
`Subscription not found` (HTTP 404), the database state is returned
unchanged (no payment row, no subscription change), and neither
notification path is attempted. -/
theorem C7_not_found_no_mutation (today : Date) (relay : RelayResponse) (input : PaymentInput)
    (st : DBState)
    (h1 : phpEmptyIntOpt input.subscription_id = false)
    (h2 : phpEmptyRatOpt input.amount = false)
    (hn : st.subs.find? (fun s => (s.id : Int) == input.subscription_id.getD 0) = none) :
    processPayment today relay input st
      = ⟨PayResponse.err "Subscription not found" 404, st, false, false⟩ := by
  have hj : findSubJoinClient st (input.subscription_id.getD 0) = none := by
    unfold findSubJoinClient
    rw [hn]
  simp [processPayment, h1, h2, hj]

/-- C7 witness: the not-found theorem instantiated on a one-client state
with no subscription 99. -/
theorem C7_not_found_no_mutation_witness :
    processPayment ⟨2025, 6, 1⟩ ⟨"", 200, "", some []⟩
        ⟨some 99, some 50, none, none, none, none⟩
        ⟨[⟨7, "Ann", "ann@mail.test", "70123456", 1⟩],
         [⟨1, 7, "internet", 1, SubStatus.active, ⟨2025, 7, 1⟩⟩], [], [], [], 1, 1⟩
      = ⟨PayResponse.err "Subscription not found" 404,
         ⟨[⟨7, "Ann", "ann@mail.test", "70123456", 1⟩],
          [⟨1, 7, "internet", 1, SubStatus.active, ⟨2025, 7, 1⟩⟩], [], [], [], 1, 1⟩,
         false, false⟩ :=
  C7_not_found_no_mutation ⟨2025, 6, 1⟩ ⟨"", 200, "", some []⟩
    ⟨some 99, some 50, none, none, none, none⟩
    ⟨[⟨7, "Ann", "ann@mail.test", "70123456", 1⟩],
     [⟨1, 7, "internet", 1, SubStatus.active, ⟨2025, 7, 1⟩⟩], [], [], [], 1, 1⟩
    (by decide) (by decide) (by decide)

/-- C10: at the payment endpoint, a request whose amount is missing or
exactly 0 is rejected before any mutation with the message `Amount is
required` (PHP `empty()` treats 0 as absent), while a strictly negative
amount passes validation: the payment row is recorded with the negative
amount and the subscription's `next_payment_date` is advanced by one
billing cycle exactly as for a positive payment. -/
theorem C10_zero_rejected_negative_accepted (today : Date) (relay : RelayResponse) :
    (∀ (input : PaymentInput) (st : DBState),
      phpEmptyIntOpt input.subscription_id = false →
      (input.amount = none ∨ input.amount = some 0) →
      processPayment today relay input st
        = ⟨PayResponse.err "Amount is required" 400, st, false, false⟩)
    ∧ (∀ (input : PaymentInput) (st : DBState) (sub : Subscription) (client : Client) (a : Rat),
      phpEmptyIntOpt input.subscription_id = false →
      input.amount = some a → a < 0 →
      findSubJoinClient st (input.subscription_id.getD 0) = some (sub, client) →
      (processPayment today relay input st).state.payments
          = st.payments ++ [⟨st.nextPaymentId, sub.id, a, input.payment_date.getD today,
              input.payment_method.getD "cash", phpTrim (input.notes.getD "")⟩]
        ∧ (processPayment today relay input st).state.subs
            = subAdvance (phpAddMonths sub.next_payment_date sub.billing_cycle) sub.id st.subs) := by
  constructor
  · intro input st h1 hamt
    have h2 : phpEmptyRatOpt input.amount = true := by
      rcases hamt with h | h <;> simp [h, phpEmptyRatOpt]
    simp [processPayment, h1, h2]
  · intro input st sub client a h1 ha hneg hj
    have h2 : phpEmptyRatOpt (some a) = false := by
      simp only [phpEmptyRatOpt, decide_eq_false_iff_not]
      exact hneg.ne
    have h2' : phpEmptyRatOpt input.amount = false := by rw [ha]; exact h2
    simp only [processPayment, h1, h2', hj, ha, h2, Bool.false_eq_true, if_false,
      Option.getD_some]
    cases hss : shouldSendWhatsApp input.send_whatsapp client.whatsapp_opt_in client.phone
    · simp [hss]
    · simp only [hss, if_true, sendPaymentConfirmationMessage]
      constructor
      · rw [(internal_preserves _ _ _ _).2.2]
      · rw [(internal_preserves _ _ _ _).2.1]

/-- C10 witness: amount 0 rejected, amount −5 recorded and the date
advanced, on a concrete one-subscription state. -/
theorem C10_zero_rejected_negative_accepted_witness :
    processPayment ⟨2025, 6, 1⟩ ⟨"", 200, "", some []⟩
        ⟨some 1, some 0, none, none, none, none⟩
        ⟨[⟨7, "Ann", "ann@mail.test", "70123456", 0⟩],
         [⟨1, 7, "internet", 1, SubStatus.active, ⟨2025, 7, 1⟩⟩], [], [], [], 1, 1⟩
      = ⟨PayResponse.err "Amount is required" 400,
         ⟨[⟨7, "Ann", "ann@mail.test", "70123456", 0⟩],
          [⟨1, 7, "internet", 1, SubStatus.active, ⟨2025, 7, 1⟩⟩], [], [], [], 1, 1⟩,
         false, false⟩
    ∧ ((processPayment ⟨2025, 6, 1⟩ ⟨"", 200, "", some []⟩
        ⟨some 1, some (-5), none, none, none, none⟩
        ⟨[⟨7, "Ann", "ann@mail.test", "70123456", 0⟩],
         [⟨1, 7, "internet", 1, SubStatus.active, ⟨2025, 7, 1⟩⟩], [], [], [], 1, 1⟩).state.payments
          = [] ++ [⟨1, 1, -5, ⟨2025, 6, 1⟩, "cash", phpTrim ""⟩]
      ∧ (processPayment ⟨2025, 6, 1⟩ ⟨"", 200, "", some []⟩
        ⟨some 1, some (-5), none, none, none, none⟩
        ⟨[⟨7, "Ann", "ann@mail.test", "70123456", 0⟩],
         [⟨1, 7, "internet", 1, SubStatus.active, ⟨2025, 7, 1⟩⟩], [], [], [], 1, 1⟩).state.subs
          = subAdvance (phpAddMonths ⟨2025, 7, 1⟩ 1) 1
              [⟨1, 7, "internet", 1, SubStatus.active, ⟨2025, 7, 1⟩⟩]) :=
  ⟨(C10_zero_rejected_negative_accepted ⟨2025, 6, 1⟩ ⟨"", 200, "", some []⟩).1
      ⟨some 1, some 0, none, none, none, none⟩
      ⟨[⟨7, "Ann", "ann@mail.test", "70123456", 0⟩],
       [⟨1, 7, "internet", 1, SubStatus.active, ⟨2025, 7, 1⟩⟩], [], [], [], 1, 1⟩
      (by decide) (Or.inr rfl),
   (C10_zero_rejected_negative_accepted ⟨2025, 6, 1⟩ ⟨"", 200, "", some []⟩).2
      ⟨some 1, some (-5), none, none, none, none⟩
      ⟨[⟨7, "Ann", "ann@mail.test", "70123456", 0⟩],
       [⟨1, 7, "internet", 1, SubStatus.active, ⟨2025, 7, 1⟩⟩], [], [], [], 1, 1⟩
      ⟨1, 7, "internet", 1, SubStatus.active, ⟨2025, 7, 1⟩⟩
      ⟨7, "Ann", "ann@mail.test", "70123456", 0⟩ (-5)
      (by decide) rfl (by decide) (by decide)⟩

/-- C6: the next due date produced by processing a payment depends only on
the stored `next_payment_date` and `billing_cycle`, never on the supplied
`payment_date`: two requests on the same state differing only in
`payment_date` (including backdated dates) produce the same
`next_payment_date` in the response and the same subscription table. -/
theorem C6_payment_date_independence (today : Date) (relay : RelayResponse) (st : DBState)
    (i1 i2 : PaymentInput)
    (hsid : i1.subscription_id = i2.subscription_id)
    (hamt : i1.amount = i2.amount)
    (hmeth : i1.payment_method = i2.payment_method)
    (hnotes : i1.notes = i2.notes)
    (hsw : i1.send_whatsapp = i2.send_whatsapp) :
    (processPayment today relay i1 st).response.nextDate
      = (processPayment today relay i2 st).response.nextDate
    ∧ (processPayment today relay i1 st).state.subs
      = (processPayment today relay i2 st).state.subs := by
  obtain ⟨s1, a1, m1, n1, d1, w1⟩ := i1
  obtain ⟨s2, a2, m2, n2, d2, w2⟩ := i2
  simp only at hsid hamt hmeth hnotes hsw
  subst hsid hamt hmeth hnotes hsw
  by_cases h1 : phpEmptyIntOpt s1 = true
  · simp [processPayment, h1]
  · rw [Bool.not_eq_true] at h1
    by_cases h2 : phpEmptyRatOpt a1 = true
    · simp [processPayment, h1, h2]
    · rw [Bool.not_eq_true] at h2
      cases hj : findSubJoinClient st (s1.getD 0) with
      | none => simp [processPayment, h1, h2, hj]
      | some sc =>
        obtain ⟨sub, client⟩ := sc
        cases hss : shouldSendWhatsApp w1 client.whatsapp_opt_in client.phone with
        | false =>
          simp [processPayment, h1, h2, hj, hss, PayResponse.nextDate]
        | true =>
          simp only [processPayment, h1, h2, hj, hss, Bool.false_eq_true, if_false, if_true,
            sendPaymentConfirmationMessage, PayResponse.nextDate]
          constructor
          · trivial
          · rw [(internal_preserves _ _ _ _).2.1, (internal_preserves _ _ _ _).2.1]

/-- C6 witness: two requests differing only in a backdated versus current
payment date yield the same next due date and subscription table. -/
theorem C6_payment_date_independence_witness :
    (processPayment ⟨2025, 6, 1⟩ ⟨"", 200, "", some []⟩
        ⟨some 1, some 50, none, none, some ⟨2024, 1, 1⟩, none⟩
        ⟨[⟨7, "Ann", "ann@mail.test", "70123456", 1⟩],
         [⟨1, 7, "internet", 3, SubStatus.active, ⟨2025, 7, 1⟩⟩], [], [], [], 1, 1⟩).response.nextDate
      = (processPayment ⟨2025, 6, 1⟩ ⟨"", 200, "", some []⟩
        ⟨some 1, some 50, none, none, none, none⟩
        ⟨[⟨7, "Ann", "ann@mail.test", "70123456", 1⟩],
         [⟨1, 7, "internet", 3, SubStatus.active, ⟨2025, 7, 1⟩⟩], [], [], [], 1, 1⟩).response.nextDate
    ∧ (processPayment ⟨2025, 6, 1⟩ ⟨"", 200, "", some []⟩
        ⟨some 1, some 50, none, none, some ⟨2024, 1, 1⟩, none⟩
        ⟨[⟨7, "Ann", "ann@mail.test", "70123456", 1⟩],
         [⟨1, 7, "internet", 3, SubStatus.active, ⟨2025, 7, 1⟩⟩], [], [], [], 1, 1⟩).state.subs
      = (processPayment ⟨2025, 6, 1⟩ ⟨"", 200, "", some []⟩
        ⟨some 1, some 50, none, none, none, none⟩
        ⟨[⟨7, "Ann", "ann@mail.test", "70123456", 1⟩],
         [⟨1, 7, "internet", 3, SubStatus.active, ⟨2025, 7, 1⟩⟩], [], [], [], 1, 1⟩).state.subs :=
  C6_payment_date_independence ⟨2025, 6, 1⟩ ⟨"", 200, "", some []⟩
    ⟨[⟨7, "Ann", "ann@mail.test", "70123456", 1⟩],
     [⟨1, 7, "internet", 3, SubStatus.active, ⟨2025, 7, 1⟩⟩], [], [], [], 1, 1⟩
    ⟨some 1, some 50, none, none, some ⟨2024, 1, 1⟩, none⟩
    ⟨some 1, some 50, none, none, none, none⟩
    rfl rfl rfl rfl rfl

/-- C5: whatever the subscription's prior status (active, stopped or
expired — `sub` is arbitrary), a successfully processed payment leaves the
subscription row with status `active` (and the advanced due date): looking
the row up in the resulting state yields the record updated to `active`
unconditionally. -/
theorem C5_payment_reactivates (today : Date) (relay : RelayResponse) (input : PaymentInput)
    (st : DBState) (sub : Subscription) (client : Client)
    (h1 : phpEmptyIntOpt input.subscription_id = false)
    (h2 : phpEmptyRatOpt input.amount = false)
    (hj : findSubJoinClient st (input.subscription_id.getD 0) = some (sub, client)) :
    (processPayment today relay input st).state.subs.find? (fun s => s.id == sub.id)
      = some { sub with
          next_payment_date := phpAddMonths sub.next_payment_date sub.billing_cycle,
          status := SubStatus.active } := by
  obtain ⟨hsub, -⟩ := findSubJoinClient_some st (input.subscription_id.getD 0) sub client hj
  cases hss : shouldSendWhatsApp input.send_whatsapp client.whatsapp_opt_in client.phone with
  | false =>
    simp only [processPayment, h1, h2, hj, hss, Bool.false_eq_true, if_false]
    exact subAdvance_find st.subs (input.subscription_id.getD 0) sub
      (phpAddMonths sub.next_payment_date sub.billing_cycle) hsub
  | true =>
    simp only [processPayment, h1, h2, hj, hss, Bool.false_eq_true, if_false, if_true,
      sendPaymentConfirmationMessage]
    rw [(internal_preserves _ _ _ _).2.1]
    exact subAdvance_find st.subs (input.subscription_id.getD 0) sub
      (phpAddMonths sub.next_payment_date sub.billing_cycle) hsub

/-- C5 witness: a payment on a stopped subscription leaves it active with
the advanced due date. -/
theorem C5_payment_reactivates_witness :
    (processPayment ⟨2025, 6, 1⟩ ⟨"", 200, "", some []⟩
        ⟨some 1, some 50, none, none, none, some false⟩
        ⟨[⟨7, "Ann", "ann@mail.test", "70123456", 1⟩],
         [⟨1, 7, "internet", 3, SubStatus.stopped, ⟨2025, 9, 1⟩⟩],
         [], [], [], 1, 1⟩).state.subs.find?
        (fun s => s.id == (⟨1, 7, "internet", 3, SubStatus.stopped, ⟨2025, 9, 1⟩⟩ : Subscription).id)
      = some { (⟨1, 7, "internet", 3, SubStatus.stopped, ⟨2025, 9, 1⟩⟩ : Subscription) with
          next_payment_date := phpAddMonths ⟨2025, 9, 1⟩ 3,
          status := SubStatus.active } :=
  C5_payment_reactivates ⟨2025, 6, 1⟩ ⟨"", 200, "", some []⟩
    ⟨some 1, some 50, none, none, none, some false⟩
    ⟨[⟨7, "Ann", "ann@mail.test", "70123456", 1⟩],
     [⟨1, 7, "internet", 3, SubStatus.stopped, ⟨2025, 9, 1⟩⟩], [], [], [], 1, 1⟩
    ⟨1, 7, "internet", 3, SubStatus.stopped, ⟨2025, 9, 1⟩⟩
    ⟨7, "Ann", "ann@mail.test", "70123456", 1⟩
    (by decide) (by decide) (by decide)

/-- C3 counterexample: the claim states a WhatsApp send is attempted
whenever the client's `whatsapp_opt_in` is 1, the phone is *non-empty*, and
`send_whatsapp` was omitted or true.  The code gates the send with PHP
`empty($subscription['client_phone'])`, and `empty` treats the non-empty
string `"0"` as empty: for a client with phone `"0"`, opt-in 1 and no
explicit `send_whatsapp`, no send is attempted although every condition of
the claim holds. -/
theorem C3_phone_zero_counterexample :
    (processPayment ⟨2025, 6, 1⟩ ⟨"", 200, "", some []⟩
        ⟨some 1, some 50, none, none, none, none⟩
        ⟨[⟨7, "Ann", "ann@mail.test", "0", 1⟩],
         [⟨1, 7, "internet", 1, SubStatus.active, ⟨2025, 7, 1⟩⟩],
         [], [], [], 1, 1⟩).whatsappAttempted = false
    ∧ ("0" : String) ≠ ""
    ∧ (⟨7, "Ann", "ann@mail.test", "0", 1⟩ : Client).whatsapp_opt_in = 1 := by
  exact ⟨by decide, by decide, by decide⟩

/-- C3 (amended): on the success path a WhatsApp confirmation send is
attempted if and only if the client's `whatsapp_opt_in` is 1, the client's
phone is non-empty in PHP's `empty()` sense (not `""` and not `"0"`), and
`send_whatsapp` was omitted or explicitly true — in particular with
opt-in 0 no send is attempted even when `send_whatsapp = true` — while the
email confirmation is attempted for every successful payment regardless of
consent. -/
theorem C3_whatsapp_gating (today : Date) (relay : RelayResponse) (input : PaymentInput)
    (st : DBState) (sub : Subscription) (client : Client)
    (h1 : phpEmptyIntOpt input.subscription_id = false)
    (h2 : phpEmptyRatOpt input.amount = false)
    (hj : findSubJoinClient st (input.subscription_id.getD 0) = some (sub, client)) :
    ((processPayment today relay input st).whatsappAttempted = true ↔
      (client.whatsapp_opt_in = 1 ∧ phpEmptyStr client.phone = false ∧
        (input.send_whatsapp = none ∨ input.send_whatsapp = some true)))
    ∧ (processPayment today relay input st).emailAttempted = true := by
  have hatt : (processPayment today relay input st).whatsappAttempted
        = shouldSendWhatsApp input.send_whatsapp client.whatsapp_opt_in client.phone
      ∧ (processPayment today relay input st).emailAttempted = true := by
    cases hss : shouldSendWhatsApp input.send_whatsapp client.whatsapp_opt_in client.phone with
    | false =>
      simp only [processPayment, h1, h2, hj, hss, Bool.false_eq_true, if_false]
      exact ⟨by trivial, by trivial⟩
    | true =>
      simp only [processPayment, h1, h2, hj, hss, if_true, sendPaymentConfirmationMessage]
      exact ⟨by trivial, by trivial⟩
  refine ⟨?_, hatt.2⟩
  rw [hatt.1]
  exact shouldSendWhatsApp_true_iff input.send_whatsapp client.whatsapp_opt_in client.phone

/-- C3 witness: the gating equivalence instantiated on an opted-out client
with an explicit `send_whatsapp = true` request. -/
theorem C3_whatsapp_gating_witness :
    (((processPayment ⟨2025, 6, 1⟩ ⟨"", 200, "", some []⟩
        ⟨some 1, some 50, none, none, none, some true⟩
        ⟨[⟨7, "Ann", "ann@mail.test", "70123456", 0⟩],
         [⟨1, 7, "internet", 1, SubStatus.active, ⟨2025, 7, 1⟩⟩],
         [], [], [], 1, 1⟩).whatsappAttempted = true ↔
      ((⟨7, "Ann", "ann@mail.test", "70123456", 0⟩ : Client).whatsapp_opt_in = 1
        ∧ phpEmptyStr (⟨7, "Ann", "ann@mail.test", "70123456", 0⟩ : Client).phone = false
        ∧ ((some true : Option Bool) = none ∨ (some true : Option Bool) = some true)))
    ∧ (processPayment ⟨2025, 6, 1⟩ ⟨"", 200, "", some []⟩
        ⟨some 1, some 50, none, none, none, some true⟩
        ⟨[⟨7, "Ann", "ann@mail.test", "70123456", 0⟩],
         [⟨1, 7, "internet", 1, SubStatus.active, ⟨2025, 7, 1⟩⟩],
         [], [], [], 1, 1⟩).emailAttempted = true) :=
  C3_whatsapp_gating ⟨2025, 6, 1⟩ ⟨"", 200, "", some []⟩
    ⟨some 1, some 50, none, none, none, some true⟩
    ⟨[⟨7, "Ann", "ann@mail.test", "70123456", 0⟩],
     [⟨1, 7, "internet", 1, SubStatus.active, ⟨2025, 7, 1⟩⟩], [], [], [], 1, 1⟩
    ⟨1, 7, "internet", 1, SubStatus.active, ⟨2025, 7, 1⟩⟩
    ⟨7, "Ann", "ann@mail.test", "70123456", 0⟩
    (by decide) (by decide) (by decide)

theorem waapi_fail (st : DBState) (ph m : String) (relay : RelayResponse)
    (hp : phpEmptyStr ph = false) (hm : phpEmptyStr m = false)
    (hfail : relay.curlError ≠ "" ∨ relay.httpCode < 200 ∨ 300 ≤ relay.httpCode) :
    (sendWhatsAppViaApi st ph m relay).1.success = false
    ∧ ∃ e, (sendWhatsAppViaApi st ph m relay).1.error = some e := by
  unfold sendWhatsAppViaApi
  simp only [hp, hm, Bool.false_eq_true, if_false]
  by_cases hc : relay.curlError = ""
  · have hr : ¬(200 ≤ relay.httpCode ∧ relay.httpCode < 300) := by
      rcases hfail with h | h | h
      · exact absurd hc h
      · omega
      · omega
    simp [hc, hr]
  · simp [hc]

theorem internal_fail_shape (st' base : DBState) (p : Payment) (sub : Subscription)
    (client : Client) (sid : Int) (nd : Date) (relay : RelayResponse)
    (hp : st'.payments = base.payments ++ [p])
    (hs : st'.subs = subAdvance nd sub.id base.subs)
    (hc : st'.clients = base.clients)
    (hfresh : ∀ q ∈ base.payments, q.id ≠ p.id)
    (hsub : base.subs.find? (fun s => (s.id : Int) == sid) = some sub)
    (hcl : base.clients.find? (fun c => c.id == sub.client_id) = some client)
    (hpsid : p.subscription_id = sub.id)
    (hpid : 0 < p.id)
    (hphone : phpEmptyStr client.phone = false)
    (hopt : client.whatsapp_opt_in = 1)
    (hfail : relay.curlError ≠ "" ∨ relay.httpCode < 200 ∨ 300 ≤ relay.httpCode) :
    (sendPaymentConfirmationInternal st' (p.id : Int) (some client.phone) relay).1.success = false
    ∧ ∃ e, (sendPaymentConfirmationInternal st' (p.id : Int) (some client.phone) relay).1.error
        = some e := by
  have hjoin := findPaymentJoin_eval st' base p sub client sid nd hp hs hc hfresh hsub hcl hpsid
  have hpid' : ¬((p.id : Int) ≤ 0) := by
    omega
  have hmsg : phpEmptyStr (confirmationMessage client.name sub.type p.amount p.payment_date)
      = false := phpEmptyStr_confirmationMessage client.name sub.type p.amount p.payment_date
  have hwa := waapi_fail
    { st' with
      reminders := st'.reminders ++
        [⟨st'.nextReminderId, sub.client_id,
          confirmationMessage client.name sub.type p.amount p.payment_date, true,
          ReminderStatus.sent⟩],
      nextReminderId := st'.nextReminderId + 1 }
    client.phone (confirmationMessage client.name sub.type p.amount p.payment_date) relay
    hphone hmsg hfail
  simp only [sendPaymentConfirmationInternal, if_neg hpid', hjoin, Option.getD_some,
    hphone, Bool.false_eq_true, if_false, hopt, not_true_eq_false]
  simp only [hwa.1, Bool.false_eq_true, if_false]
  exact ⟨by trivial, ⟨_, rfl⟩⟩

/-- C2: when the WhatsApp confirmation attempt fails (transport error or a
non-2xx relay response), the payment row and the advanced
`next_payment_date` remain committed in the resulting state, and the
caller receives the success response in which the failure appears only as
`whatsapp_sent = false` together with a `whatsapp_error` message; the
WhatsApp failure is never turned into a payment failure. -/
theorem C2_whatsapp_failure_isolation (today : Date) (relay : RelayResponse)
    (input : PaymentInput) (st : DBState) (sub : Subscription) (client : Client)
    (h1 : phpEmptyIntOpt input.subscription_id = false)
    (h2 : phpEmptyRatOpt input.amount = false)
    (hj : findSubJoinClient st (input.subscription_id.getD 0) = some (sub, client))
    (hsend : shouldSendWhatsApp input.send_whatsapp client.whatsapp_opt_in client.phone = true)
    (hpid : 0 < st.nextPaymentId)
    (hfresh : ∀ q ∈ st.payments, q.id ≠ st.nextPaymentId)
    (hfail : relay.curlError ≠ "" ∨ relay.httpCode < 200 ∨ 300 ≤ relay.httpCode) :
    ∃ msg,
      (processPayment today relay input st).response
        = PayResponse.ok st.nextPaymentId
            (phpAddMonths sub.next_payment_date sub.billing_cycle) false (some msg)
      ∧ (processPayment today relay input st).state.payments
          = st.payments ++ [⟨st.nextPaymentId, sub.id, input.amount.getD 0,
              input.payment_date.getD today, input.payment_method.getD "cash",
              phpTrim (input.notes.getD "")⟩]
      ∧ (processPayment today relay input st).state.subs
          = subAdvance (phpAddMonths sub.next_payment_date sub.billing_cycle) sub.id st.subs := by
  obtain ⟨hsub, hcl⟩ := findSubJoinClient_some st (input.subscription_id.getD 0) sub client hj
  obtain ⟨hopt, hphone, -⟩ := (shouldSendWhatsApp_true_iff input.send_whatsapp
    client.whatsapp_opt_in client.phone).mp hsend
  have key := internal_fail_shape
    { st with
      payments := st.payments ++ [⟨st.nextPaymentId, sub.id, input.amount.getD 0,
        input.payment_date.getD today, input.payment_method.getD "cash",
        phpTrim (input.notes.getD "")⟩],
      subs := subAdvance (phpAddMonths sub.next_payment_date sub.billing_cycle) sub.id st.subs,
      nextPaymentId := st.nextPaymentId + 1 }
    st
    ⟨st.nextPaymentId, sub.id, input.amount.getD 0, input.payment_date.getD today,
      input.payment_method.getD "cash", phpTrim (input.notes.getD "")⟩
    sub client (input.subscription_id.getD 0)
    (phpAddMonths sub.next_payment_date sub.billing_cycle) relay
    rfl rfl rfl hfresh hsub hcl rfl hpid hphone hopt hfail
  obtain ⟨hkf, e, hke⟩ := key
  refine ⟨e, ?_, ?_, ?_⟩
  · simp only [processPayment, h1, h2, hj, hsend, Bool.false_eq_true, if_false, if_true,
      sendPaymentConfirmationMessage]
    rw [hkf, hke]
  · simp only [processPayment, h1, h2, hj, hsend, Bool.false_eq_true, if_false, if_true,
      sendPaymentConfirmationMessage]
    rw [(internal_preserves _ _ _ _).2.2]
  · simp only [processPayment, h1, h2, hj, hsend, Bool.false_eq_true, if_false, if_true,
      sendPaymentConfirmationMessage]
    rw [(internal_preserves _ _ _ _).2.1]

/-- C2 witness: the failure-isolation theorem instantiated on a concrete
state and a transport failure of the relay. -/
theorem C2_whatsapp_failure_isolation_witness :
    ∃ msg,
      (processPayment ⟨2025, 6, 1⟩ ⟨"timeout", 0, "", none⟩
          ⟨some 1, some 50, none, none, none, none⟩
          ⟨[⟨7, "Ann", "ann@mail.test", "70123456", 1⟩],
           [⟨1, 7, "internet", 1, SubStatus.active, ⟨2025, 7, 1⟩⟩],
           [], [], [], 1, 1⟩).response
        = PayResponse.ok 1 (phpAddMonths ⟨2025, 7, 1⟩ 1) false (some msg)
      ∧ (processPayment ⟨2025, 6, 1⟩ ⟨"timeout", 0, "", none⟩
          ⟨some 1, some 50, none, none, none, none⟩
          ⟨[⟨7, "Ann", "ann@mail.test", "70123456", 1⟩],
           [⟨1, 7, "internet", 1, SubStatus.active, ⟨2025, 7, 1⟩⟩],
           [], [], [], 1, 1⟩).state.payments
          = [] ++ [⟨1, 1, 50, ⟨2025, 6, 1⟩, "cash", phpTrim ""⟩]
      ∧ (processPayment ⟨2025, 6, 1⟩ ⟨"timeout", 0, "", none⟩
          ⟨some 1, some 50, none, none, none, none⟩
          ⟨[⟨7, "Ann", "ann@mail.test", "70123456", 1⟩],
           [⟨1, 7, "internet", 1, SubStatus.active, ⟨2025, 7, 1⟩⟩],
           [], [], [], 1, 1⟩).state.subs
          = subAdvance (phpAddMonths ⟨2025, 7, 1⟩ 1) 1
              [⟨1, 7, "internet", 1, SubStatus.active, ⟨2025, 7, 1⟩⟩] :=
  C2_whatsapp_failure_isolation ⟨2025, 6, 1⟩ ⟨"timeout", 0, "", none⟩
    ⟨some 1, some 50, none, none, none, none⟩
    ⟨[⟨7, "Ann", "ann@mail.test", "70123456", 1⟩],
     [⟨1, 7, "internet", 1, SubStatus.active, ⟨2025, 7, 1⟩⟩], [], [], [], 1, 1⟩
    ⟨1, 7, "internet", 1, SubStatus.active, ⟨2025, 7, 1⟩⟩
    ⟨7, "Ann", "ann@mail.test", "70123456", 1⟩
    (by decide) (by decide) (by decide) (by decide) (by decide) (by decide)
    (Or.inl (by decide))

end Spotnet
